import Mathlib

set_option maxRecDepth 16384

/-!
Verification development for the `ai_chat_hint_tutor` repository.

The Python sources under `ai_crew_tutor/` are shallowly embedded below:
pure functions become Lean functions on `String` / `List Char`, the ambient
Streamlit session state touched by `question_mode.py` becomes an explicit
`TutorStep` record threaded through a step function, and the external
collaborators of `crew.py` (YAML configs, feedback store, RAG tool, the
language-model call) become explicit parameters.  Python `str` values are
modelled as Lean `String` (the inputs exercised here are ASCII, where
Python's `\w`/`\s`/`lower()` agree with the ASCII-level Lean definitions
used below).
-/

namespace AiCrewTutor

/- ### Small string toolkit

`leadsWith pat s` is `True` iff `pat` is a leading segment of `s`;
`hasSubstr s pat` is Python's `pat in s`. -/

def leadsWith : List Char → List Char → Bool
  | [], _ => true
  | _ :: _, [] => false
  | p :: ps, c :: cs => p == c && leadsWith ps cs

def hasSubstr : List Char → List Char → Bool
  | [], pat => pat.isEmpty
  | s@(_ :: rest), pat => leadsWith pat s || hasSubstr rest pat

def containsSubstr (s pat : String) : Bool :=
  hasSubstr s.data pat.data

theorem leadsWith_iff (pat s : List Char) :
    leadsWith pat s = true ↔ ∃ t, s = pat ++ t := by
  induction pat generalizing s with
  | nil => simp [leadsWith]
  | cons p ps ih =>
    cases s with
    | nil => simp [leadsWith]
    | cons c cs =>
      simp only [leadsWith, Bool.and_eq_true, beq_iff_eq, ih, List.cons_append,
        List.cons.injEq]
      constructor
      · rintro ⟨rfl, t, rfl⟩; exact ⟨t, rfl, rfl⟩
      · rintro ⟨t, rfl, rfl⟩; exact ⟨rfl, t, rfl⟩

theorem hasSubstr_iff (s pat : List Char) :
    hasSubstr s pat = true ↔ ∃ u v, s = u ++ pat ++ v := by
  induction s with
  | nil =>
    simp only [hasSubstr, List.isEmpty_iff]
    constructor
    · rintro rfl; exact ⟨[], [], rfl⟩
    · rintro ⟨u, v, h⟩
      rcases List.append_eq_nil.mp h.symm with ⟨h1, h2⟩
      exact (List.append_eq_nil.mp h1).2
  | cons c rest ih =>
    simp only [hasSubstr, Bool.or_eq_true, leadsWith_iff, ih]
    constructor
    · rintro (⟨t, h⟩ | ⟨u, v, h⟩)
      · exact ⟨[], t, by simp [h]⟩
      · exact ⟨c :: u, v, by simp [h]⟩
    · rintro ⟨u, v, h⟩
      cases u with
      | nil => exact Or.inl ⟨v, by simpa using h⟩
      | cons d u' =>
        right
        simp only [List.cons_append, List.cons.injEq] at h
        exact ⟨u', v, h.2⟩

/-- A leading occurrence is an occurrence. -/
theorem hasSubstr_of_leadsWith {s pat : List Char} (h : leadsWith pat s = true) :
    hasSubstr s pat = true := by
  cases s with
  | nil =>
    cases pat with
    | nil => rfl
    | cons p ps => simp [leadsWith] at h
  | cons c rest => simp [hasSubstr, h]

/- ### Python string primitives (ASCII semantics)

`py_isspace` is Python's `\s` on ASCII, `py_isword` is `\w` on ASCII,
`py_strip` is `str.strip()`, `py_lower` is `str.lower()` (via `Char.toLower`,
which agrees with Python on ASCII). -/

def py_isspace (c : Char) : Bool :=
  c = ' ' || c = '\t' || c = '\n' || c = '\r' || c = '\x0b' || c = '\x0c'

def py_isword (c : Char) : Bool :=
  ('a' ≤ c && c ≤ 'z') || ('A' ≤ c && c ≤ 'Z') || ('0' ≤ c && c ≤ '9') || c = '_'

def py_strip (s : String) : String :=
  String.mk (((s.data.dropWhile py_isspace).reverse.dropWhile py_isspace).reverse)

def py_lower (s : String) : String :=
  String.mk (s.data.map Char.toLower)

/-- Split a character list at every separator character satisfying `p`,
keeping empty pieces (the behaviour of Python's `str.split(sep)` for a
one-character `sep`). -/
def split_by (p : Char → Bool) : List Char → List (List Char)
  | [] => [[]]
  | c :: rest =>
    if p c then [] :: split_by p rest
    else
      match split_by p rest with
      | [] => [[c]]
      | piece :: pieces => (c :: piece) :: pieces

/-- `str.split()` (no separator): split on whitespace runs, discarding empties. -/
def py_split_ws (s : String) : List String :=
  ((split_by py_isspace s.data).map String.mk).filter (fun p => p ≠ "")

/-- One pass of `re.sub(r'\s+', ' ', s)`: each run of whitespace becomes a single
space.  The `Bool` flag records whether the previous character was part of a
whitespace run whose replacement space was already emitted. -/
def collapse_ws_go : List Char → Bool → List Char
  | [], _ => []
  | c :: rest, inRun =>
    if py_isspace c then
      if inRun then collapse_ws_go rest true else ' ' :: collapse_ws_go rest true
    else c :: collapse_ws_go rest false

/-- `java_code_validator._normalize_whitespace`:
`re.sub(r'\s+', ' ', s).strip()`. -/
def _normalize_whitespace (s : String) : String :=
  py_strip (String.mk (collapse_ws_go s.data false))

/- ### `utils/java_code_validator.py` — the regex method-signature matcher

`signature_check` uses
`re.search(r'(public|protected|private|static|\s)*\s*([\w\<\>\[\]\s,]+)\s+(\w+)\s*\(([^)]*)\)', code)`.
The pattern is embedded as a bespoke backtracking matcher with Python `re`
semantics: leftmost starting position, greedy quantifiers preferring the
longest extent first, alternation branches tried in written order.  Only
groups 2 (return type), 3 (name) and 4 (parameter list) are used by the
source. -/

/-- Character class of group 2, `[\w\<\>\[\]\s,]`. -/
def sig_class2 (c : Char) : Bool :=
  py_isword c || c = '<' || c = '>' || c = '[' || c = ']' || py_isspace c || c = ','

/-- Greedy backtracking for a counted character-class repetition: try taking
`minLen + cnt` characters, then `minLen + cnt - 1`, … down to `minLen`. -/
def tryLens (s : List Char) (minLen : Nat) (k : List Char → List Char → Option α) :
    Nat → Option α
  | 0 => k (s.take minLen) (s.drop minLen)
  | cnt + 1 =>
    match k (s.take (minLen + cnt + 1)) (s.drop (minLen + cnt + 1)) with
    | some r => some r
    | none => tryLens s minLen k cnt

/-- Greedy `class{minLen,}` (so `\s*` is `minLen = 0`, `\w+` is `minLen = 1`, …):
take the maximal run of class characters, backtracking one character at a
time, never below `minLen`. -/
def greedyClass (p : Char → Bool) (minLen : Nat) (s : List Char)
    (k : List Char → List Char → Option α) : Option α :=
  let n := (s.takeWhile p).length
  if n < minLen then none else tryLens s minLen k (n - minLen)

/-- A literal single character. -/
def litChar (c : Char) (s : List Char) (k : List Char → Option α) : Option α :=
  match s with
  | d :: rest => if d = c then k rest else none
  | [] => none

/-- A literal word. -/
def litWord (w : String) (s : List Char) (k : List Char → Option α) : Option α :=
  if leadsWith w.data s then k (s.drop w.data.length) else none

/-- One iteration of group 1, the alternation
`(public|protected|private|static|\s)`, branches in written order. -/
def sig_g1_branch (s : List Char) (k : List Char → Option α) : Option α :=
  litWord "public" s k <|> litWord "protected" s k <|> litWord "private" s k <|>
  litWord "static" s k <|>
  (match s with
   | c :: rest => if py_isspace c then k rest else none
   | [] => none)

/-- Greedy `(public|protected|private|static|\s)*`: prefer more iterations.
Every branch consumes at least one character, so fuel `s.length` never runs
out before the star is forced to stop anyway. -/
def sig_g1_star : Nat → List Char → (List Char → Option α) → Option α
  | 0, s, k => k s
  | fuel + 1, s, k => sig_g1_branch s (fun s' => sig_g1_star fuel s' k) <|> k s

/-- Try to match the whole signature pattern at the start of `s`, returning
groups 2, 3 and 4. -/
def sig_match_here (s : List Char) : Option (List Char × List Char × List Char) :=
  sig_g1_star s.length s fun s1 =>
  greedyClass py_isspace 0 s1 fun _ s2 =>
  greedyClass sig_class2 1 s2 fun g2 s3 =>
  greedyClass py_isspace 1 s3 fun _ s4 =>
  greedyClass py_isword 1 s4 fun g3 s5 =>
  greedyClass py_isspace 0 s5 fun _ s6 =>
  litChar '(' s6 fun s7 =>
  greedyClass (fun c => c ≠ ')') 0 s7 fun g4 s8 =>
  litChar ')' s8 fun _ =>
  some (g2, g3, g4)

/-- `re.search`: try every starting position, leftmost first. -/
def sig_search : List Char → Option (List Char × List Char × List Char)
  | [] => sig_match_here []
  | c :: rest => sig_match_here (c :: rest) <|> sig_search rest

/-- The parameter-type portion of `signature_check`: split `found_params` on
commas, strip each piece, drop empties, take all but the last whitespace
token of each piece as its type, and require each expected type to occur as
a substring of at least one extracted type. -/
def sig_params_ok (param_types : List String) (found_params : String) : Bool :=
  let param_tokens :=
    (((split_by (fun c => c = ',') found_params.data).map String.mk).map py_strip).filter
      (fun p => p ≠ "")
  let types_found := param_tokens.filterMap (fun p =>
    let t := (py_split_ws p).dropLast
    if t.isEmpty then none else some (String.mk (((t.map String.data).intersperse [' ']).flatten)))
  param_types.all (fun expected => types_found.any (fun tf => containsSubstr tf expected))

/-- `java_code_validator.signature_check`.  Optional arguments are `Option`s;
a present-but-empty string or list is falsy in Python and therefore skips
its check, mirrored by the explicit emptiness tests. -/
def signature_check (student_code : String) (method_name : Option String := none)
    (return_type : Option String := none) (param_types : Option (List String) := none) :
    Bool :=
  let code := _normalize_whitespace student_code
  match sig_search code.data with
  | none => false
  | some (g2, g3, g4) =>
    let found_return := _normalize_whitespace (String.mk g2)
    let found_name := String.mk g3
    let found_params := py_strip (String.mk g4)
    (match method_name with
     | some mn => mn = "" || found_name = mn
     | none => true) &&
    (match return_type with
     | some rt => rt = "" || containsSubstr found_return rt
     | none => true) &&
    (match param_types with
     | some pts => pts.isEmpty || sig_params_ok pts found_params
     | none => true)

/-- `java_code_validator.content_check`: case-insensitive required/forbidden
substring checks. -/
def content_check (student_code : String) (required_tokens : Option (List String) := none)
    (forbidden_tokens : Option (List String) := none) : Bool :=
  let code_lower := py_lower student_code
  (match required_tokens with
   | some toks => toks.all (fun tok => containsSubstr code_lower (py_lower tok))
   | none => true) &&
  (match forbidden_tokens with
   | some toks => toks.all (fun tok => !containsSubstr code_lower (py_lower tok))
   | none => true)

/-- Python truthiness of an optional string (`None` and `""` are falsy). -/
def truthy_str : Option String → Bool
  | some s => s ≠ ""
  | none => false

/-- Python truthiness of an optional list (`None` and `[]` are falsy). -/
def truthy_list : Option (List String) → Bool
  | some l => !l.isEmpty
  | none => false

/-- `java_code_validator.java_validator_factory`.  The optional
`ast_check_using_javalang` step depends on the external `javalang` library
(absent from the repository; the source returns `False` when the import
fails), so it is abstracted as the parameter `ast_check`.  `student_answer`
is an `Option` so that Python `None` (turned into `""` by
`student_answer or ""`) is representable. -/
def java_validator_factory (ast_check : String → Option String → Bool)
    (method_name : Option String := none) (return_type : Option String := none)
    (param_types : Option (List String) := none)
    (required_tokens : Option (List String) := none)
    (forbidden_tokens : Option (List String) := none)
    (use_ast_check : Bool := false) : Option String → Bool :=
  fun student_answer =>
    let code := student_answer.getD ""
    (if truthy_str method_name || truthy_str return_type || truthy_list param_types then
        signature_check code method_name return_type param_types
      else true) &&
    (if truthy_list required_tokens || truthy_list forbidden_tokens then
        content_check code required_tokens forbidden_tokens
      else true) &&
    (if use_ast_check && truthy_str method_name then
        ast_check code method_name
      else true)

/- ### `components/question_mode.py` -/

/-- The string for attempt 0 in `get_scaffolding_strategy`'s `strategies`
dict. -/
def strategy_text_0 : String :=
  "FIRST INTERACTION - Set Direction ONLY:\n⚠️ DO NOT provide any code yet - just guide conceptually!\n- Acknowledge what they want to build\n- Break it into 2-3 concrete sub-steps (e.g., \"1. Create method signature, 2. Add the logic, 3. Return the result\")\n- Give ONE tiny conceptual hint (e.g., \"You\x27ll need to use the + operator\")\n- Ask them to try writing the method signature first\n- FORBIDDEN: Do NOT show ANY code structure or method templates"

/-- The string for attempt 1. -/
def strategy_text_1 : String :=
  "SECOND INTERACTION - Targeted Hints ONLY:\n⚠️ Still NO complete code - just specific guidance!\n- Point out specifically what\x27s missing or wrong in their attempt\n- Provide API/operator hints (e.g., \"You\x27ll need the + operator to add two numbers\")\n- Show ONLY the method signature if they\x27re struggling with it\n- Ask them to try implementing the body\n- FORBIDDEN: Do NOT show the method body or return statement"

/-- The string for attempt 2. -/
def strategy_text_2 : String :=
  "THIRD INTERACTION - Partial Code with Blanks:\nNOW you can show partial code, but with blanks to fill in:\n- Give a partial implementation like: \"public int sum(int a, int b) \x7b return ____ + ____; \x7d\"\n- Explain what each blank should be\n- Ask them to fill in the blanks"

/-- The string for attempt 3. -/
def strategy_text_3 : String :=
  "FOURTH INTERACTION - Working Solution:\nNOW provide the complete working solution:\n- Show full working code\n- Explain each line\n- Ask them to modify it slightly (e.g., \"Now try multiplying instead\")"

/-- The default string returned by `strategies.get` for attempts ≥ 4. -/
def strategy_text_default : String :=
  "FIFTH+ INTERACTION - Deep Understanding:\n- Help them understand variations or debug their modifications\n- Suggest extensions and edge cases\n- Keep encouraging exploration"

/-- `question_mode.get_scaffolding_strategy`: `strategies.get(attempt_number,
default)` rendered as a case split on the four explicit keys. -/
def get_scaffolding_strategy (attempt_number : Nat) : String :=
  if attempt_number = 0 then strategy_text_0
  else if attempt_number = 1 then strategy_text_1
  else if attempt_number = 2 then strategy_text_2
  else if attempt_number = 3 then strategy_text_3
  else strategy_text_default

/-- `question_mode.looks_like_code`: the fixed marker list of the source,
matched case-insensitively as substrings. -/
def code_pattern_list : List String :=
  ["public", "private", "return", "void", "\x7b", "list", "stream", "int ", "=", ";",
   "class", "import"]

def looks_like_code (text : String) : Bool :=
  code_pattern_list.any (fun pattern => containsSubstr (py_lower text) pattern)

/-- `question_mode.validate_code`.  The session validator produced by
`java_validator_factory` returns a bare `bool`, so the non-tuple branch of
the source applies: a result `r` becomes `(bool(r), "Good attempt, but not
quite right yet.")`.  `none` models Python `None` (no validator, or input
that does not look like code). -/
def validate_code (user_input : String) (validator : Option (String → Bool)) :
    Option (Bool × String) :=
  match validator with
  | none => none
  | some v =>
    if !looks_like_code user_input then none
    else some (v user_input, "Good attempt, but not quite right yet.")

/-- The `tutor_step` session record. -/
structure TutorStep where
  step_id : Nat
  attempts : Nat
  last_validation_result : Option (Bool × String)
deriving DecidableEq, Repr

/-- `question_mode.reset_chat` / the `_ensure_step_state` default: the
`tutor_step` record it installs. -/
def reset_chat_step : TutorStep :=
  { step_id := 0, attempts := 0, last_validation_result := none }

/-- The effect of one `question_mode.process_user_message` call on the
`tutor_step` record: run `validate_code`; a truthy result is stored in
`last_validation_result`; a correct result triggers
`handle_correct_solution` (attempts reset to 0, `step_id` incremented); an
incorrect result increments `attempts` after the agent reply; `None` leaves
the record unchanged. -/
def process_user_message_step (step : TutorStep) (user_input : String)
    (validator : Option (String → Bool)) : TutorStep :=
  match validate_code user_input validator with
  | some (true, m) =>
    { step with last_validation_result := some (true, m), attempts := 0,
                step_id := step.step_id + 1 }
  | some (false, m) =>
    { step with last_validation_result := some (false, m),
                attempts := step.attempts + 1 }
  | none => step

/-- A chat-history entry (`{"role": …, "content": …, "avatar": …}`). -/
structure Msg where
  role : String
  content : String
  avatar : String
deriving DecidableEq, Repr

/-- `question_mode.build_conversation_history`. -/
def build_conversation_history (chat_history : List Msg) (persona : String) : String :=
  chat_history.foldl
    (fun conversation msg =>
      conversation ++ (if msg.role = "user" then "Student" else persona) ++ ": " ++
        msg.content ++ "\n\n")
    ""

/-- `question_mode.build_validation_feedback`. -/
def build_validation_feedback (validation_result : Option (Bool × String))
    (attempt_number : Nat) : String :=
  match validation_result with
  | none => ""
  | some (true, _) =>
    "\n**✅ VALIDATION: CODE IS CORRECT - Student solved it! Congratulate and move to next challenge.**"
  | some (false, msg) =>
    "\n**❌ VALIDATION: Code has issues - " ++ msg ++ "**\n**Continue guiding based on attempt #" ++
      toString (attempt_number + 1) ++ " strategy below.**"

/-- `question_mode.build_efficient_chat_context`: the f-string assembled for
the language model. -/
def build_efficient_chat_context (chat_history : List Msg) (persona : String)
    (step_info : TutorStep) (validation_result : Option (Bool × String) := none) : String :=
  let attempts := step_info.attempts
  let conversation := build_conversation_history chat_history persona
  let feedback_section := build_validation_feedback validation_result attempts
  let strategy := get_scaffolding_strategy attempts
  let latest_message := match chat_history.getLast? with
    | some m => m.content
    | none => "N/A"
  "You are " ++ persona ++
    ", an efficient Java tutor who guides students through problems progressively.\n\nCONVERSATION SO FAR:\n" ++
    conversation ++ "\n\nCURRENT SITUATION:\n- This is attempt #" ++ toString (attempts + 1) ++
    " at the current step\n" ++ feedback_section ++
    "\n\nYOUR SCAFFOLDING STRATEGY FOR THIS ATTEMPT:\n" ++ strategy ++
    "\n\n⚠️ CRITICAL RULES - FOLLOW EXACTLY:\n1. READ the conversation history above to see what you already said\n2. If validation shows ✅ CORRECT: Congratulate and stop giving hints\n3. If validation shows ❌ INCORRECT: Follow the scaffolding strategy EXACTLY as written above\n4. DO NOT SKIP AHEAD - If strategy says \"no code yet\", then give NO code\n5. NEVER repeat yourself - each response should add new information only\n6. Keep responses under 150 words and conversational\n7. Always end with a specific question or directive\n8. The student\x27s latest message was: \"" ++
    latest_message ++ "\"\n\nYou must follow the scaffolding level (attempt #" ++
    toString attempts ++ ") strictly. Respond as " ++ persona ++ ":"

/- ### The escalation-level abstraction

The specification's `ScaffoldingDecision.escalation_level` enum, recovered
from the strategy text `get_scaffolding_strategy` selects: the four source
tiers are labelled by the fixed headings of the strings in the
`strategies` dict, and everything past the explicit tiers keeps the full
solution exposed. -/

inductive EscalationLevel
  | Guide
  | Hint
  | PartialSolution
  | FullSolution
deriving DecidableEq, Repr

/-- Numeric rank of a level, for monotonicity statements. -/
def EscalationLevel.toNat : EscalationLevel → Nat
  | .Guide => 0
  | .Hint => 1
  | .PartialSolution => 2
  | .FullSolution => 3

/-- Classify a strategy text by its heading. -/
def strategy_level (s : String) : EscalationLevel :=
  if containsSubstr s "FIRST INTERACTION" then .Guide
  else if containsSubstr s "SECOND INTERACTION" then .Hint
  else if containsSubstr s "THIRD INTERACTION" then .PartialSolution
  else .FullSolution

/-- The escalation level the engine exposes for a given attempt count. -/
def escalation_level (attempt_number : Nat) : EscalationLevel :=
  strategy_level (get_scaffolding_strategy attempt_number)

/-- The escalation level used for one turn of the whole pipeline, as a
function of the `create_crew` proficiency argument and the attempt count:
`build_efficient_chat_context` selects the scaffolding strategy from the
attempt count alone, and `create_crew`'s proficiency-dependent text does
not enter the selection, so the proficiency argument is ignored. -/
def turn_escalation_level (_proficiency : String) (attempts : Nat) : EscalationLevel :=
  escalation_level attempts

/- ### `ai_hint_project/crew.py` — `format_response`

`format_response` first runs
`re.sub(r"<think>.*?</think>\n?", "", raw, flags=re.DOTALL)`.
`re.sub` deletes non-overlapping matches scanning left to right: at each
position it tries the pattern (the lazy `.*?` makes the **nearest** later
`</think>` close the block, `\n?` greedily takes one following newline) and,
on a match, resumes scanning right after the deleted text. -/

/-- The opening marker `<think>`. -/
def think_open : List Char := ['<', 't', 'h', 'i', 'n', 'k', '>']

/-- The closing marker `</think>`. -/
def think_close : List Char := ['<', '/', 't', 'h', 'i', 'n', 'k', '>']

/-- The `\n?` at the end of the pattern: greedily consume one newline. -/
def drop_one_newline : List Char → List Char
  | '\n' :: rest => rest
  | s => s

/-- Find the earliest occurrence of `</think>` and return the text after it
(the lazy `.*?</think>` step). -/
def find_think_close : List Char → Option (List Char)
  | [] => none
  | c :: rest =>
    if leadsWith think_close (c :: rest) then some ((c :: rest).drop 8)
    else find_think_close rest

theorem find_think_close_length :
    ∀ (l after : List Char), find_think_close l = some after → after.length + 8 ≤ l.length := by
  intro l
  induction l with
  | nil => intro after h; simp [find_think_close] at h
  | cons c rest ih =>
    intro after h
    rw [find_think_close] at h
    by_cases hp : leadsWith think_close (c :: rest) = true
    · rw [if_pos hp] at h
      obtain ⟨t, ht⟩ := (leadsWith_iff _ _).mp hp
      injection h with h'
      subst h'
      rw [ht]
      simp [think_close]
    · rw [if_neg hp] at h
      have := ih after h
      simp only [List.length_cons]
      omega

/-- The `re.sub(r"<think>.*?</think>\n?", "", …)` scan. -/
def strip_think_chars : List Char → List Char
  | [] => []
  | c :: rest =>
    if leadsWith think_open (c :: rest) then
      match h : find_think_close (rest.drop 6) with
      | some after => strip_think_chars (drop_one_newline after)
      | none => c :: strip_think_chars rest
    else c :: strip_think_chars rest
termination_by s => s.length
decreasing_by
  · have hlen := find_think_close_length _ _ h
    have hdn : (drop_one_newline after).length ≤ after.length := by
      unfold drop_one_newline; split <;> simp
    have hdrop : (rest.drop 6).length ≤ rest.length := by
      simp
    simp only [List.length_cons]
    omega
  · simp
  · simp

/-- One unit `\n\s{4,}.*` of the code-block pattern: a newline, a greedy run
of at least four whitespace characters, then the rest of the line (`.`
without `DOTALL` stops at a newline).  Returns the matched text and the
remainder.  Nothing follows this pattern in the regex, so the greedy
matches never need to backtrack. -/
def code_block_unit : List Char → Option (List Char × List Char)
  | '\n' :: rest =>
    let ws := rest.takeWhile py_isspace
    if 4 ≤ ws.length then
      let after_ws := rest.dropWhile py_isspace
      let line := after_ws.takeWhile (fun c => c ≠ '\n')
      some ('\n' :: (ws ++ line), after_ws.dropWhile (fun c => c ≠ '\n'))
    else none
  | _ => none

/-- `(?:\n\s{4,}.*)+`: one or more units, greedily.  The fuel only bounds the
iteration count; every unit consumes at least five characters. -/
def code_block_units : Nat → List Char → Option (List Char × List Char)
  | 0, _ => none
  | fuel + 1, s =>
    match code_block_unit s with
    | none => none
    | some (m, rest) =>
      match code_block_units fuel rest with
      | some (m2, rest2) => some (m ++ m2, rest2)
      | none => some (m, rest)

/-- The `re.sub` scan replacing every code-block run by
`"\n```java\n" + run + "\n```"`.  Fuel bounds the scan length; it is
instantiated with the length of the text, and every step consumes at least
one character. -/
def code_block_scan : Nat → List Char → List Char
  | 0, s => s
  | fuel + 1, s =>
    match s with
    | [] => []
    | c :: rest =>
      match code_block_units (fuel + 1) (c :: rest) with
      | some (m, r) =>
        "\n```java\n".data ++ m ++ "\n```".data ++ code_block_scan fuel r
      | none => c :: code_block_scan fuel rest

/-- The second substitution of `format_response`, applied only when the text
looks like it holds code. -/
def normalize_code_blocks (s : String) : String :=
  String.mk (code_block_scan s.data.length s.data)

/-- `crew.format_response`. -/
def format_response (raw_text : String) : String :=
  let cleaned := String.mk (strip_think_chars raw_text.data)
  let cleaned :=
    if containsSubstr cleaned "public static" || containsSubstr cleaned "def " then
      normalize_code_blocks cleaned
    else cleaned
  py_strip cleaned

/-- `true` iff `s` has a substring of the form `<think>…</think>` (an opening
marker with a closing marker somewhere after it — if any opening marker is
followed by a closing one, the first opening marker is too). -/
def has_think_block (s : String) : Bool :=
  match find_think_open s.data with
  | some rest => hasSubstr rest think_close
  | none => false
where
  find_think_open : List Char → Option (List Char)
    | [] => none
    | c :: rest =>
      if leadsWith think_open (c :: rest) then some ((c :: rest).drop 7)
      else find_think_open rest

/- ### `ai_hint_project/crew.py` — `create_crew` -/

/-- The `core_rules` constant of `create_crew` (a triple-quoted Python
string, indentation included). -/
def core_rules : String :=
  "\n    CRITICAL CHAT RULES:\n    1. KEEP IT SHORT: Max 3-4 sentences.\n    2. NO CODE SPOILERS: Do NOT write the exact code solution.\n    3. THE \"👉\" RULE: Every response MUST end with a specific question asking the student to write code.\n    4. ABSTRACT EXAMPLES: If showing syntax, use \x27public type name()\x27 not \x27public int sum()\x27.\n    "

/-- The proficiency-dependent `scaffolding_instruction` of `create_crew`:
`Beginner` and `Intermediate` have dedicated branches, anything else falls
into the `Advanced` branch. -/
def scaffolding_instruction (proficiency : String) : String :=
  if proficiency = "Beginner" then
    "\n            " ++ core_rules ++
    "\n            [MODE: BEGINNER - SOCRATIC METHOD]\n            1. Break the problem into tiny steps.\n            2. **CHECK INPUT FIRST**: Before explaining Step 1, check if the user just sent the code for it. \n               - IF YES: Praise them, explain *why* it works, and move immediately to Step 2.\n               - IF NO: Then explain Step 1.\n            3. **BAN LIST**: Do NOT use specific keywords (int, void) in explanations. Ask \"What data type?\" instead.\n            4. **METAPHOR FIRST**: Use your persona\x27s metaphor.\n            5. TASK: Challenge the student to propose the code for the *current* step.\n            "
  else if proficiency = "Intermediate" then
    "\n        " ++ core_rules ++
    "\n        [MODE: INTERMEDIATE]\n        1. Focus on Logic and Data Flow.\n        2. Do NOT explain basic syntax unless asked.\n        3. Ask Socratic questions (e.g., \"What return type fits this data?\").\n        "
  else
    "\n        " ++ core_rules ++
    "\n        [MODE: ADVANCED]\n        1. Critique code efficiency and cleanliness.\n        2. Be concise.\n        "

/-- A stored teacher critique, as returned by
`data_collection.get_recent_feedback`. -/
structure Critique where
  bad_response : String
  critique : String

/-- The `corrections_text` assembly of `create_crew`. -/
def corrections_text (recent_critiques : List Critique) : String :=
  if recent_critiques.isEmpty then ""
  else
    (recent_critiques.foldl
      (fun acc item =>
        acc ++ "- Context: \x27" ++ String.mk (item.bad_response.data.take 50) ++
          "...\x27\n" ++ "  TEACHER FEEDBACK: " ++ item.critique ++ "\n")
      "\n🚨 [WARNING: AVOID PREVIOUS MISTAKES]:\n") ++
    "You MUST follow the Teacher Feedback above."

/-- An entry of `config/agents.yaml` under `agents:`. -/
structure AgentCfg where
  role : String
  goal : String
  backstory : String
  level : Option String
deriving Repr

/-- An entry of `config/tasks.yaml` under `tasks:`; `description` is the
template closed under `.format(query=…)`. -/
structure TaskCfg where
  name : String
  description : String → String
  expected_output : String

/-- The external interactions `create_crew` performs after its configuration
check, in order. -/
inductive CrewEvent
  | fetchFeedback
  | ragQuery
  | llmKickoff
  | updateLevel
deriving DecidableEq, Repr

/-- `crew.create_crew`.  External collaborators are parameters: the parsed
YAML configs (`agents_config`, `tasks_config` — both task types exist in the
shipped file, so the task table is total), the feedback store
(`recent_critiques`, the value of `get_recent_feedback(persona, limit=3)`),
the RAG tool, the Crew LLM call (`kickoff`, from composed task description
to the raw model output) and the `st.session_state` read `chat_mode`
(`is_chat()`).  The result pairs the Python return value (or the raised
`ValueError`) with the trace of external interactions performed. -/
def create_crew (agents_config : List (String × AgentCfg)) (tasks_config : String → TaskCfg)
    (recent_critiques : List Critique) (rag_tool : String → String)
    (kickoff : String → String) (chat_mode : Bool) (persona : String)
    (tutoring_context : String) (proficiency : String := "Beginner") :
    Except String String × List CrewEvent :=
  match agents_config.lookup persona with
  | none => (Except.error ("Unknown persona: " ++ persona), [])
  | some _agent_cfg =>
    let corrections := corrections_text recent_critiques
    let instruction := scaffolding_instruction proficiency
    let rag_context := rag_tool tutoring_context
    let full_query_context :=
      "\n    SYSTEM INSTRUCTIONS:\n    " ++ instruction ++ "\n\n    " ++ corrections ++
        "\n\n    USER QUERY / CONTEXT:\n    " ++ tutoring_context ++
        "\n\n    RELEVANT DOCUMENTATION:\n    " ++ rag_context ++ "\n    "
    let task_type := if chat_mode then "guided_learning" else "explainer"
    let task_template := tasks_config task_type
    let result := kickoff (task_template.description full_query_context)
    (Except.ok (format_response result),
     [CrewEvent.fetchFeedback, CrewEvent.ragQuery, CrewEvent.llmKickoff,
      CrewEvent.updateLevel])

/- ### Shared helper facts -/

theorem str_data_append (a b : String) : (a ++ b).data = a.data ++ b.data := rfl

/-- Numeric value of the escalation level as a function of the attempt
count. -/
theorem escalation_level_toNat (n : Nat) : (escalation_level n).toNat = min n 3 := by
  match n with
  | 0 => rfl
  | 1 => rfl
  | 2 => rfl
  | 3 => rfl
  | m + 4 =>
    have h : escalation_level (m + 4) = EscalationLevel.FullSolution := rfl
    rw [h]
    simp only [EscalationLevel.toNat]
    omega

theorem escalation_level_of_toNat_three {l : EscalationLevel} (h : l.toNat = 3) :
    l = EscalationLevel.FullSolution := by
  cases l <;> simp [EscalationLevel.toNat] at h ⊢

/-- The input sentence of the C5/C6 validator examples. -/
def double_numbers_submission : String :=
  "public List<Integer> doubleNumbers(List<Integer> nums) \x7b return nums.stream().map(n -> n*2).collect(Collectors.toList()); \x7d"

/-- The validator of the C5 example: a spec requiring only the tokens
`stream` and `map`, wrapped the way `initialize_validator` stores the
factory output in the session (the produced callable receives the raw
student string). -/
def stream_map_validator : String → Bool :=
  fun s =>
    java_validator_factory (fun _ _ => false) none none none (some ["stream", "map"])
      none false (some s)

/-- Appending on the right of a string preserves an interior occurrence. -/
theorem exists_mid_append_right {s : String} {x : List Char} (b : String)
    (h : ∃ u v, s.data = u ++ x ++ v) : ∃ u v, (s ++ b).data = u ++ x ++ v := by
  obtain ⟨u, v, hh⟩ := h
  exact ⟨u, v ++ b.data, by simp [str_data_append, hh]⟩

/-- Prepending on the left of a string preserves an interior occurrence. -/
theorem exists_mid_append_left {s : String} {x : List Char} (a : String)
    (h : ∃ u v, s.data = u ++ x ++ v) : ∃ u v, (a ++ s).data = u ++ x ++ v := by
  obtain ⟨u, v, hh⟩ := h
  exact ⟨a.data ++ u, v, by simp [str_data_append, hh]⟩

/-- Folding further turns onto the conversation accumulator preserves an
interior occurrence of the accumulated text. -/
theorem conversation_foldl_keeps (persona : String) (t : List Msg) :
    ∀ (a : String) (x : List Char), (∃ u v, a.data = u ++ x ++ v) →
      ∃ u v,
        (List.foldl
          (fun conversation msg =>
            conversation ++ (if msg.role = "user" then "Student" else persona) ++ ": " ++
              msg.content ++ "\n\n")
          a t).data = u ++ x ++ v := by
  induction t with
  | nil => intro a x h; exact h
  | cons m t ih =>
    intro a x h
    simp only [List.foldl_cons]
    apply ih
    obtain ⟨u, v, hh⟩ := h
    exact ⟨u,
      v ++ ((if m.role = "user" then "Student" else persona) ++ ": " ++ m.content ++ "\n\n").data,
      by simp [str_data_append, hh]⟩

/-- Every message of the history occurs verbatim inside the conversation
fold, whatever the accumulator. -/
theorem content_in_conversation_fold (persona : String) :
    ∀ (t : List Msg) (a : String) (msg : Msg), msg ∈ t →
      ∃ u v,
        (List.foldl
          (fun conversation msg =>
            conversation ++ (if msg.role = "user" then "Student" else persona) ++ ": " ++
              msg.content ++ "\n\n")
          a t).data = u ++ msg.content.data ++ v := by
  intro t
  induction t with
  | nil => intro a msg h; cases h
  | cons m t ih =>
    intro a msg hm
    simp only [List.foldl_cons]
    rcases List.mem_cons.mp hm with rfl | hmem
    · apply conversation_foldl_keeps
      refine ⟨(a ++ (if msg.role = "user" then "Student" else persona) ++ ": ").data,
        "\n\n".data, ?_⟩
      simp [str_data_append]
    · exact ih _ msg hmem

/-- Every message of the history occurs verbatim inside
`build_conversation_history`. -/
theorem content_in_conversation (hist : List Msg) (persona : String) (msg : Msg)
    (hm : msg ∈ hist) :
    ∃ u v, (build_conversation_history hist persona).data = u ++ msg.content.data ++ v := by
  unfold build_conversation_history
  exact content_in_conversation_fold persona hist "" msg hm

/-- Every message of the history occurs verbatim inside the composed
language-model context. -/
theorem content_in_context (hist : List Msg) (persona : String) (step : TutorStep)
    (vres : Option (Bool × String)) (msg : Msg) (hm : msg ∈ hist) :
    containsSubstr (build_efficient_chat_context hist persona step vres) msg.content = true := by
  unfold containsSubstr
  rw [hasSubstr_iff]
  simp only [build_efficient_chat_context]
  iterate 13 apply exists_mid_append_right
  apply exists_mid_append_left
  exact content_in_conversation hist persona msg hm

/- ### Helper lemmas for the `<think>` stripping pass -/

/-- A pattern is a leading segment of itself followed by anything. -/
theorem leadsWith_self_append (pat t : List Char) : leadsWith pat (pat ++ t) = true := by
  induction pat with
  | nil => rfl
  | cons p ps ih => simp [leadsWith, ih]

/-- `<think>` has no border: no proper non-empty prefix is also a suffix. -/
theorem border_free_think_open :
    ∀ k, k < think_open.length → 0 < k →
      think_open.drop k ≠ think_open.take (think_open.length - k) := by decide

/-- `</think>` has no border either. -/
theorem border_free_think_close :
    ∀ k, k < think_close.length → 0 < k →
      think_close.drop k ≠ think_close.take (think_close.length - k) := by decide

/-- If a border-free pattern does not occur in a non-empty `pre`, then the
text `pre ++ pat ++ X` does not start with the pattern (an occurrence at
position 0 would either lie inside `pre` or exhibit a border). -/
theorem leadsWith_pre_append_false (pat pre X : List Char)
    (hb : ∀ k, k < pat.length → 0 < k → pat.drop k ≠ pat.take (pat.length - k))
    (hpre : pre ≠ []) (hsub : hasSubstr pre pat = false) :
    leadsWith pat (pre ++ (pat ++ X)) = false := by
  by_contra hc
  rw [Bool.not_eq_false] at hc
  obtain ⟨t, ht⟩ := (leadsWith_iff _ _).mp hc
  rcases le_or_lt pat.length pre.length with hlen | hlen
  · -- the occurrence at position 0 lies inside `pre`
    have e1 : (pre ++ (pat ++ X)).take pat.length = pre.take pat.length := by
      rw [List.take_append_eq_append_take, Nat.sub_eq_zero_of_le hlen, List.take_zero,
        List.append_nil]
    have e2 : (pat ++ t).take pat.length = pat := by
      rw [List.take_append_eq_append_take, Nat.sub_self, List.take_zero, List.append_nil,
        List.take_length]
    have htake : pre.take pat.length = pat := by rw [← e1, ht, e2]
    have hlead : leadsWith pat pre = true := by
      rw [leadsWith_iff]
      have hsplit : pre = List.take pat.length pre ++ List.drop pat.length pre :=
        (List.take_append_drop _ _).symm
      rw [htake] at hsplit
      exact ⟨List.drop pat.length pre, hsplit⟩
    rw [hasSubstr_of_leadsWith hlead] at hsub
    cases hsub
  · -- the occurrence at position 0 straddles `pre` and `pat`: a border
    have hk0 : 0 < pre.length := List.length_pos.mpr hpre
    have d1 : (pre ++ (pat ++ X)).drop pre.length = pat ++ X := by
      rw [List.drop_append_eq_append_drop, Nat.sub_self, List.drop_length, List.drop_zero,
        List.nil_append]
    have d2 : (pat ++ t).drop pre.length = pat.drop pre.length ++ t := by
      rw [List.drop_append_eq_append_drop, Nat.sub_eq_zero_of_le (Nat.le_of_lt hlen),
        List.drop_zero]
    have hdrop : pat ++ X = pat.drop pre.length ++ t := by rw [← d1, ht, d2]
    have hlend : (pat.drop pre.length).length = pat.length - pre.length := by simp
    have e1 : (pat ++ X).take (pat.length - pre.length) = pat.take (pat.length - pre.length) := by
      rw [List.take_append_eq_append_take, Nat.sub_eq_zero_of_le (Nat.sub_le _ _),
        List.take_zero, List.append_nil]
    have e2 : (pat.drop pre.length ++ t).take (pat.length - pre.length) =
        pat.drop pre.length := by
      rw [List.take_append_eq_append_take, hlend, Nat.sub_self, List.take_zero,
        List.append_nil, List.take_of_length_le (le_of_eq hlend)]
    have hfin : pat.take (pat.length - pre.length) = pat.drop pre.length := by
      rw [← e1, hdrop, e2]
    exact hb pre.length hlen hk0 hfin.symm

/-- The lazy close search resolves to the first `</think>` when the text
before it is free of closing markers. -/
theorem find_close_append (mid post : List Char) (h : hasSubstr mid think_close = false) :
    find_think_close (mid ++ (think_close ++ post)) = some post := by
  induction mid with
  | nil =>
    simp only [List.nil_append]
    simp [find_think_close, think_close, leadsWith]
  | cons d mid' ih =>
    simp only [hasSubstr, Bool.or_eq_false_iff] at h
    have hfalse : leadsWith think_close ((d :: mid') ++ (think_close ++ post)) = false :=
      leadsWith_pre_append_false think_close (d :: mid') post border_free_think_close
        (by simp) (by simp [hasSubstr, h.1, h.2])
    rw [List.cons_append]
    simp only [find_think_close]
    rw [List.cons_append] at hfalse
    rw [if_neg (by simp [hfalse])]
    exact ih h.2

/-- Text without an opening marker passes through the stripping scan
unchanged. -/
theorem strip_think_noop (s : List Char) (h : hasSubstr s think_open = false) :
    strip_think_chars s = s := by
  induction s with
  | nil => simp [strip_think_chars]
  | cons c rest ih =>
    simp only [hasSubstr, Bool.or_eq_false_iff] at h
    rw [strip_think_chars]
    rw [if_neg (by simp [h.1])]
    rw [ih h.2]

/-- A leading `<think>…</think>` block (whose body has no closing marker) is
deleted together with one following newline. -/
theorem strip_think_block (mid post : List Char) (h : hasSubstr mid think_close = false) :
    strip_think_chars (think_open ++ (mid ++ (think_close ++ post))) =
      strip_think_chars (drop_one_newline post) := by
  have hcons : think_open ++ (mid ++ (think_close ++ post)) =
      '<' :: 't' :: 'h' :: 'i' :: 'n' :: 'k' :: '>' :: (mid ++ (think_close ++ post)) := by
    simp [think_open]
  rw [hcons, strip_think_chars]
  have hlead :
      leadsWith think_open
        ('<' :: 't' :: 'h' :: 'i' :: 'n' :: 'k' :: '>' :: (mid ++ (think_close ++ post))) =
      true := by
    simp [think_open, leadsWith]
  rw [if_pos hlead]
  have hdrop :
      ('t' :: 'h' :: 'i' :: 'n' :: 'k' :: '>' :: (mid ++ (think_close ++ post))).drop 6 =
        mid ++ (think_close ++ post) := rfl
  split
  · next after heq =>
    rw [hdrop, find_close_append mid post h] at heq
    injection heq with heq'
    rw [heq']
  · next heq =>
    rw [hdrop, find_close_append mid post h] at heq
    cases heq

/-- The stripping pass copies marker-free text and deletes the following
block. -/
theorem strip_think_pre (pre mid post : List Char)
    (hpre : hasSubstr pre think_open = false)
    (hmid : hasSubstr mid think_close = false) :
    strip_think_chars (pre ++ (think_open ++ (mid ++ (think_close ++ post)))) =
      pre ++ strip_think_chars (drop_one_newline post) := by
  induction pre with
  | nil =>
    simp only [List.nil_append]
    exact strip_think_block mid post hmid
  | cons c pre' ih =>
    simp only [hasSubstr, Bool.or_eq_false_iff] at hpre
    have hfalse :
        leadsWith think_open
          ((c :: pre') ++ (think_open ++ (mid ++ (think_close ++ post)))) = false :=
      leadsWith_pre_append_false think_open (c :: pre') (mid ++ (think_close ++ post))
        border_free_think_open (by simp) (by simp [hasSubstr, hpre.1, hpre.2])
    rw [List.cons_append]
    rw [strip_think_chars]
    rw [List.cons_append] at hfalse
    rw [if_neg (by simp [hfalse])]
    rw [ih hpre.2]
    rw [List.cons_append]

/- ### C1 -/

/-- C1: `get_scaffolding_strategy` realizes a non-decreasing escalation
function of the attempt count, with 0 ↦ Guide, 1 ↦ Hint, 2 ↦
PartialSolution and ≥ 3 ↦ FullSolution, and one `process_user_message`
turn moves the level up by at most one — in particular never from `Guide`
straight to `FullSolution`. -/
theorem c1_escalation_monotone_one_step_per_turn :
    (∀ m n : Nat, m ≤ n → (escalation_level m).toNat ≤ (escalation_level n).toNat) ∧
    escalation_level 0 = EscalationLevel.Guide ∧
    escalation_level 1 = EscalationLevel.Hint ∧
    escalation_level 2 = EscalationLevel.PartialSolution ∧
    (∀ n, 3 ≤ n → escalation_level n = EscalationLevel.FullSolution) ∧
    (∀ (step : TutorStep) (input : String) (validator : Option (String → Bool)),
      (escalation_level (process_user_message_step step input validator).attempts).toNat ≤
        (escalation_level step.attempts).toNat + 1) ∧
    (∀ (step : TutorStep) (input : String) (validator : Option (String → Bool)),
      escalation_level step.attempts = EscalationLevel.Guide →
      escalation_level (process_user_message_step step input validator).attempts ≠
        EscalationLevel.FullSolution) := by
  have hattempts : ∀ (step : TutorStep) (input : String) (validator : Option (String → Bool)),
      (process_user_message_step step input validator).attempts = 0 ∨
      (process_user_message_step step input validator).attempts = step.attempts + 1 ∨
      (process_user_message_step step input validator).attempts = step.attempts := by
    intro step input validator
    unfold process_user_message_step
    rcases validate_code input validator with _ | ⟨b, m⟩
    · right; right; rfl
    · cases b
      · right; left; rfl
      · left; rfl
  refine ⟨?_, rfl, rfl, rfl, ?_, ?_, ?_⟩
  · intro m n hmn
    rw [escalation_level_toNat, escalation_level_toNat]
    omega
  · intro n hn
    apply escalation_level_of_toNat_three
    rw [escalation_level_toNat]
    omega
  · intro step input validator
    rcases hattempts step input validator with h | h | h <;>
      simp only [h, escalation_level_toNat] <;> omega
  · intro step input validator hg
    have h0 : step.attempts = 0 := by
      have := congrArg EscalationLevel.toNat hg
      rw [escalation_level_toNat] at this
      simp [EscalationLevel.toNat] at this
      omega
    intro hfull
    have := congrArg EscalationLevel.toNat hfull
    rw [escalation_level_toNat] at this
    simp [EscalationLevel.toNat] at this
    rcases hattempts step input validator with h | h | h <;> omega

/-- Closed instance of C1. -/
theorem c1_escalation_monotone_one_step_per_turn_witness :
    (escalation_level 1).toNat ≤ (escalation_level 2).toNat ∧
    escalation_level 7 = EscalationLevel.FullSolution ∧
    escalation_level
        (process_user_message_step ⟨0, 0, none⟩ "hello there" none).attempts ≠
      EscalationLevel.FullSolution :=
  ⟨c1_escalation_monotone_one_step_per_turn.1 1 2 (by omega),
   c1_escalation_monotone_one_step_per_turn.2.2.2.2.1 7 (by omega),
   c1_escalation_monotone_one_step_per_turn.2.2.2.2.2.2 ⟨0, 0, none⟩ "hello there" none rfl⟩

/- ### C2 -/

/-- C2: within a session, `attempts` is incremented (by exactly one) exactly
on a validated-incorrect submission, reset to 0 with `step_id` incremented
by exactly one on a validated-correct submission, left unchanged when
validation does not run, and zeroed by `reset_chat`. -/
theorem c2_attempt_counter_transitions :
    (∀ (step : TutorStep) (input : String) (validator : Option (String → Bool)) (m : String),
      validate_code input validator = some (false, m) →
      process_user_message_step step input validator =
        { step with last_validation_result := some (false, m),
                    attempts := step.attempts + 1 }) ∧
    (∀ (step : TutorStep) (input : String) (validator : Option (String → Bool)) (m : String),
      validate_code input validator = some (true, m) →
      process_user_message_step step input validator =
        { step with last_validation_result := some (true, m), attempts := 0,
                    step_id := step.step_id + 1 }) ∧
    (∀ (step : TutorStep) (input : String) (validator : Option (String → Bool)),
      validate_code input validator = none →
      process_user_message_step step input validator = step) ∧
    reset_chat_step.attempts = 0 ∧ reset_chat_step.step_id = 0 := by
  refine ⟨?_, ?_, ?_, rfl, rfl⟩ <;>
    intro step input validator <;>
    first
      | (intro m h; unfold process_user_message_step; rw [h])
      | (intro h; unfold process_user_message_step; rw [h])

/-- Closed instance of C2: an incorrect code submission bumps `attempts`
from 1 to 2 and leaves `step_id` alone. -/
theorem c2_attempt_counter_transitions_witness :
    process_user_message_step ⟨2, 1, none⟩ "return 1;" (some fun _ => false) =
      ⟨2, 2, some (false, "Good attempt, but not quite right yet.")⟩ :=
  c2_attempt_counter_transitions.1 ⟨2, 1, none⟩ "return 1;" (some fun _ => false)
    "Good attempt, but not quite right yet." rfl

/- ### C3 -/

/-- An eleven-turn conversation, longer than any "last 8–10 turns" window. -/
def eleven_turn_history : List Msg :=
  [⟨"user", "m00", "🧑‍💻"⟩, ⟨"assistant", "m01", "🤖"⟩, ⟨"user", "m02", "🧑‍💻"⟩,
   ⟨"assistant", "m03", "🤖"⟩, ⟨"user", "m04", "🧑‍💻"⟩, ⟨"assistant", "m05", "🤖"⟩,
   ⟨"user", "m06", "🧑‍💻"⟩, ⟨"assistant", "m07", "🤖"⟩, ⟨"user", "m08", "🧑‍💻"⟩,
   ⟨"assistant", "m09", "🤖"⟩, ⟨"user", "m10", "🧑‍💻"⟩]

/-- C3 as stated is false: with eleven turns of history, the oldest turn
(older than any 8–10-turn window) still appears verbatim in the composed
context — no turn is ever dropped. -/
theorem c3_counterexample :
    containsSubstr
        (build_efficient_chat_context eleven_turn_history "Lara Croft" ⟨0, 0, none⟩ none)
        "m00" = true :=
  content_in_context eleven_turn_history "Lara Croft" ⟨0, 0, none⟩ none
    ⟨"user", "m00", "🧑‍💻"⟩ (by decide)

/-- C3 amended: `build_efficient_chat_context` includes the full
conversation history — every turn of the history, however old, occurs
verbatim in the composed context; there is no windowing. -/
theorem c3_amended_full_history_included (hist : List Msg) (persona : String)
    (step : TutorStep) (vres : Option (Bool × String)) (msg : Msg) (hm : msg ∈ hist) :
    containsSubstr (build_efficient_chat_context hist persona step vres) msg.content = true :=
  content_in_context hist persona step vres msg hm

/-- Closed instance of C3 (amended). -/
theorem c3_amended_full_history_included_witness :
    containsSubstr
        (build_efficient_chat_context [⟨"user", "hello tutor", "🧑‍💻"⟩] "Batman" ⟨1, 2, none⟩
          none)
        "hello tutor" = true :=
  c3_amended_full_history_included [⟨"user", "hello tutor", "🧑‍💻"⟩] "Batman" ⟨1, 2, none⟩
    none ⟨"user", "hello tutor", "🧑‍💻"⟩ (by decide)

/- ### C4 -/

/-- C4 as stated is false: the escalation thresholds are not lowered for
`Advanced` — the level reached at a given attempt count is the same for
every proficiency (`FullSolution` first appears at 3 attempts under
`Advanced` exactly as under `Beginner`). -/
theorem c4_counterexample :
    turn_escalation_level "Advanced" 2 ≠ EscalationLevel.FullSolution ∧
    turn_escalation_level "Advanced" 3 = EscalationLevel.FullSolution ∧
    turn_escalation_level "Beginner" 3 = EscalationLevel.FullSolution := by
  refine ⟨?_, rfl, rfl⟩
  have h : turn_escalation_level "Advanced" 2 = EscalationLevel.PartialSolution := rfl
  rw [h]
  intro hc
  cases hc

/-- C4 amended: the attempt thresholds are a function of the attempt count
alone — identical for all proficiencies — while the no-code prohibitions do
appear in the `Guide` and `Hint` texts (and `create_crew`'s Beginner
instruction carries its own `NO CODE SPOILERS` rule). -/
theorem c4_amended_thresholds_proficiency_independent :
    (∀ (p q : String) (n : Nat), turn_escalation_level p n = turn_escalation_level q n) ∧
    containsSubstr (get_scaffolding_strategy 0) "DO NOT provide any code yet" = true ∧
    containsSubstr (get_scaffolding_strategy 1) "Still NO complete code" = true ∧
    containsSubstr (scaffolding_instruction "Beginner") "NO CODE SPOILERS" = true :=
  ⟨fun _ _ _ => rfl, rfl, rfl, rfl⟩

/- ### C5 -/

/-- C5 as stated is false on the message component: the stream/map example
validates as correct, but the pair produced by `validate_code` carries the
fixed message `"Good attempt, but not quite right yet."`, never `""`. -/
theorem c5_counterexample :
    validate_code double_numbers_submission (some stream_map_validator) =
      some (true, "Good attempt, but not quite right yet.") ∧
    validate_code double_numbers_submission (some stream_map_validator) ≠
      some (true, "") := by
  have h : validate_code double_numbers_submission (some stream_map_validator) =
      some (true, "Good attempt, but not quite right yet.") := rfl
  refine ⟨h, ?_⟩
  rw [h]
  intro hc
  injection hc with hc'
  injection hc' with hb hm
  exact absurd hm (by decide)

/-- C5 amended: the stream/map example is accepted — the factory validator
itself returns the bare boolean `true`, and `validate_code` pairs any
validator verdict with the one fixed message (so a passing submission
yields `(true, "Good attempt, but not quite right yet.")` and a failing
one `(false, "Good attempt, but not quite right yet.")`, not `(true, "")` /
`(false, diagnostic)`). -/
theorem c5_amended_validator_verdicts :
    stream_map_validator double_numbers_submission = true ∧
    validate_code double_numbers_submission (some stream_map_validator) =
      some (true, "Good attempt, but not quite right yet.") ∧
    stream_map_validator "public int f() \x7b return 1; \x7d" = false ∧
    validate_code "public int f() \x7b return 1; \x7d" (some stream_map_validator) =
      some (false, "Good attempt, but not quite right yet.") :=
  ⟨rfl, rfl, rfl, rfl⟩

/- ### C6 -/

/-- C6: `signature_check` accepts the two-int `sum` example against the full
spec, and rejects `public void sum()` against a spec demanding return type
`int` (the extracted return type `void` does not contain `int`). -/
theorem c6_signature_check_examples :
    signature_check "public int sum(int a, int b) \x7b return a + b; \x7d" (some "sum")
        (some "int") (some ["int", "int"]) = true ∧
    signature_check "public void sum()" (some "sum") (some "int") none = false :=
  ⟨rfl, rfl⟩

/- ### C7 -/

/-- C7 as stated is false: the marker list of `looks_like_code` contains
`'\x7b'` but not `'\x7d'`, `'('` or `')'`, so a text consisting solely of one
of the latter three is not classified as code. -/
theorem c7_counterexample :
    looks_like_code ")" = false ∧ looks_like_code "\x7d" = false ∧
    looks_like_code "(" = false :=
  ⟨rfl, rfl, rfl⟩

/-- C7 amended: `looks_like_code` returns `true` exactly when the lowered
text contains one of the twelve markers of `code_pattern_list` (which
include `public`, `private`, `return`, `void`, `'\x7b'` and `';'`, but not
`'\x7d'`, `'('` or `')'`); a sole `'\x7b'` or `';'` is classified as code,
a sole `')'`, `'\x7d'` or `'('` is not. -/
theorem c7_amended_marker_list :
    (∀ (text pattern : String), pattern ∈ code_pattern_list →
      containsSubstr (py_lower text) pattern = true → looks_like_code text = true) ∧
    looks_like_code "\x7b" = true ∧ looks_like_code ";" = true ∧
    looks_like_code ")" = false ∧ looks_like_code "\x7d" = false ∧
    looks_like_code "(" = false := by
  refine ⟨?_, rfl, rfl, rfl, rfl, rfl⟩
  intro text pattern hm hs
  unfold looks_like_code
  exact List.any_eq_true.mpr ⟨pattern, hm, hs⟩

/-- Closed instance of C7 (amended): a keyword marker in mixed case is
detected. -/
theorem c7_amended_marker_list_witness : looks_like_code "PUBLIC x" = true :=
  c7_amended_marker_list.1 "PUBLIC x" "public" (by decide) rfl

/- ### C8 -/

/-- C8 as stated is false: deleting the leftmost lazily-closed
`<think>…</think>` match can splice the surrounding text into a *new*
`<think>…</think>` block, so the cleaned text is not always free of such
substrings. -/
theorem c8_counterexample :
    format_response "<thi<think>x</think>nk>y</think>" = "<think>y</think>" ∧
    has_think_block (format_response "<thi<think>x</think>nk>y</think>") = true := by
  have hdata : "<thi<think>x</think>nk>y</think>".data =
      ['<', 't', 'h', 'i'] ++
        (think_open ++ (['x'] ++ (think_close ++ "nk>y</think>".data))) := rfl
  have hstrip : String.mk (strip_think_chars "<thi<think>x</think>nk>y</think>".data) =
      "<think>y</think>" := by
    rw [hdata, strip_think_pre _ _ _ (by rfl) (by rfl)]
    rw [show drop_one_newline "nk>y</think>".data = "nk>y</think>".data from rfl]
    rw [strip_think_noop _ (by rfl)]
    rfl
  have hfr : format_response "<thi<think>x</think>nk>y</think>" = "<think>y</think>" := by
    simp only [format_response, hstrip]
    rfl
  refine ⟨hfr, ?_⟩
  rw [hfr]
  rfl

/-- C8 amended: the stripping pass inside `format_response` does delete each
leftmost `<think>…</think>` block — any occurrence preceded by text without
an opening marker and whose body has no closing marker is removed, together
with one following newline — but the deletion may splice the remaining text
into a new `<think>…</think>` substring, as the counterexample shows. -/
theorem c8_amended_strip_removes_blocks (pre mid post : List Char)
    (hpre : hasSubstr pre think_open = false)
    (hmid : hasSubstr mid think_close = false) :
    strip_think_chars (pre ++ (think_open ++ (mid ++ (think_close ++ post)))) =
      pre ++ strip_think_chars (drop_one_newline post) :=
  strip_think_pre pre mid post hpre hmid

/-- Closed instance of C8 (amended). -/
theorem c8_amended_strip_removes_blocks_witness :
    strip_think_chars (['a'] ++ (think_open ++ (['x'] ++ (think_close ++ ['b'])))) =
      ['a'] ++ strip_think_chars (drop_one_newline ['b']) :=
  c8_amended_strip_removes_blocks ['a'] ['x'] ['b'] (by rfl) (by rfl)

/- ### C9 -/

/-- C9: `create_crew` on a persona absent from the agents configuration
returns the `Unknown persona` error before performing any external
interaction: no feedback fetch, no RAG query, no language-model kickoff and
no `update_level` state mutation appear in the trace. -/
theorem c9_unknown_persona_fails_before_effects
    (agents_config : List (String × AgentCfg)) (tasks_config : String → TaskCfg)
    (recent_critiques : List Critique) (rag_tool kickoff : String → String)
    (chat_mode : Bool) (persona tutoring_context proficiency : String)
    (h : agents_config.lookup persona = none) :
    create_crew agents_config tasks_config recent_critiques rag_tool kickoff chat_mode
        persona tutoring_context proficiency =
      (Except.error ("Unknown persona: " ++ persona), []) := by
  unfold create_crew
  rw [h]

/-- Closed instance of C9. -/
theorem c9_unknown_persona_fails_before_effects_witness :
    create_crew [] (fun _ => ⟨"name", id, "out"⟩) [] id id true "Yoda" "ctx" "Beginner" =
      (Except.error ("Unknown persona: " ++ "Yoda"), []) :=
  c9_unknown_persona_fails_before_effects [] (fun _ => ⟨"name", id, "out"⟩) [] id id true
    "Yoda" "ctx" "Beginner" rfl

/- ### C10 -/

/-- C10: a validator built with every configuration left at its default
accepts every submission, including `None` and the empty string. -/
theorem c10_default_validator_accepts_everything
    (ast_check : String → Option String → Bool) (student_answer : Option String) :
    java_validator_factory ast_check none none none none none false student_answer = true := by
  cases student_answer <;> rfl

end AiCrewTutor
